import Mathlib

set_option autoImplicit false

/-
Verification development for the SIH ai-service predictor subsystem.

The definitions below are a shallow embedding of
`src/ai-service/models/outbreak_predictor.py` (class `OutbreakPredictor`)
and of the simplified `OutbreakPredictor` defined inside
`src/ai-service/main.py`.  Python floats are modelled as exact rationals,
dicts and single-row pandas frames as ordered association lists, numpy's
seeded global generator as explicit state passing over a deterministic
pseudo-random step, and fallible code as `Except`.
-/

namespace SIH

/-- Value stored in a feature mapping: the Python feature dicts and the
single-row pandas frames hold numeric or string entries. -/
inductive FVal where
  | num (q : ℚ)
  | str (s : String)
  deriving DecidableEq

/-- A feature mapping / single-row frame: ordered key-value pairs,
mirroring a Python dict's insertion order. -/
abbrev Frame := List (String × FVal)

/-- First-match key lookup in a feature mapping (Python dict access). -/
def flook : Frame → String → Option FVal
  | [], _ => none
  | (k', v) :: rest, k => if k' = k then some v else flook rest k

/-- Numeric view of a stored feature value. -/
def fvalNum : FVal → Option ℚ
  | FVal.num q => some q
  | FVal.str _ => none

/-- Numeric read with default, modelling `features.get(key, default)` as it
is used on numerically-valued keys. -/
def getNumD (fm : Frame) (k : String) (d : ℚ) : ℚ :=
  ((flook fm k).bind fvalNum).getD d

/- ### Model of numpy's seeded global pseudo-random generator

The generator is deterministic: seeding fixes the state and every draw is a
pure function of the state.  A linear congruential step stands in for the
Mersenne twister, and each distribution sampler is a deterministic
transformation of a unit-uniform variate.  The claims below depend only on
determinism, on which draw consumes which state, and on order relations
between draws at equal state, all of which this model preserves. -/

abbrev RngState := ℕ

/-- One step of the modelled generator. -/
def lcgNext (s : RngState) : RngState := (s * 1103515245 + 12345) % 2147483648

/-- Model of `np.random.seed(n)`: the resulting global state is a function of
the seed alone, independent of the prior global state. -/
def npSeed (n : ℕ) : RngState := (n * 2654435761 + 1) % 2147483648

/-- The unit-interval variate read off a generator state. -/
def unitOf (s : RngState) : ℚ := (s % 1024 : ℕ) / 1024

/-- Draw `n` unit-uniform variates, threading the generator state. -/
def drawN : RngState → ℕ → List ℚ × RngState
  | s, 0 => ([], s)
  | s, n + 1 =>
    let s' := lcgNext s
    let (rest, sF) := drawN s' n
    (unitOf s' :: rest, sF)

/-- Order-faithful stand-in for the real exponential map on ℚ: strictly
monotone and positive, which is all the order reasoning below uses. -/
def expQ (x : ℚ) : ℚ := if 0 ≤ x then 1 + x else 1 / (1 - x)

/-- Model of one `np.random.exponential(scale)` variate. -/
def expoModel (scale : ℚ) (u : ℚ) : ℚ := scale * u

/-- Model of one `np.random.normal(mu, sigma)` variate. -/
def normalModel (mu sigma : ℚ) (u : ℚ) : ℚ := mu + sigma * (2 * u - 1)

/-- Model of one `np.random.lognormal(mu, sigma)` variate: the exponential
of a normal variate, so it is strictly increasing in `mu` at equal state. -/
def lognormalModel (mu sigma : ℚ) (u : ℚ) : ℚ := expQ (mu + sigma * (2 * u - 1))

/-- Model of one `np.random.poisson(lam)` variate. -/
def poissonModel (lam : ℚ) (u : ℚ) : ℚ := ((u * (2 * lam + 1)).floor : ℤ)

/-- Model of one `np.random.uniform(0, 1)` variate. -/
def uniformModel (u : ℚ) : ℚ := u

/-- Index of the option picked by one `np.random.choice(opts)` variate. -/
def catIndex (n : ℕ) (u : ℚ) : ℕ := min (n - 1) (u * n).floor.toNat

/-- Sample count used by `_generate_synthetic_data`. -/
def nSamples : ℕ := 10000

/-- Draw one numeric feature column of `nSamples` variates. -/
def drawCol (tf : ℚ → ℚ) (s : RngState) : List ℚ × RngState :=
  let (us, s') := drawN s nSamples
  (us.map tf, s')

/-- Draw one categorical feature column of `nSamples` picks. -/
def drawCat (opts : List String) (s : RngState) : List String × RngState :=
  let (us, s') := drawN s nSamples
  (us.map (fun u => opts.getD (catIndex opts.length u) ""), s')

/- ### Synthetic training data (`_generate_synthetic_data`) -/

/-- One row of the synthetic training set generated by
`OutbreakPredictor._generate_synthetic_data`, in the column order of the
generated frame. -/
structure SynRow where
  symptom_density : ℚ
  water_quality_score : ℚ
  temperature_anomaly : ℚ
  population_density : ℚ
  recent_outbreaks : ℚ
  seasonal_factor : ℚ
  weather_conditions : String
  ph_level : ℚ
  turbidity : ℚ
  tds_level : ℚ
  location_type : String
  time_of_year : String
  deriving DecidableEq

/-- The deterministic weighted risk score of `_generate_synthetic_data`
(lines 261-268 of `outbreak_predictor.py`). -/
def riskScore (r : SynRow) : ℚ :=
  r.symptom_density * 0.3 +
  (8 - r.water_quality_score) * 0.2 +
  |r.temperature_anomaly| * 0.1 +
  r.population_density / 1000 * 0.2 +
  r.recent_outbreaks * 0.1 +
  r.seasonal_factor * 0.1

/-- The label rule `np.where(risk_score < 2, 0, np.where(risk_score < 4, 1, 2))`,
applied per row. -/
def riskLabel (r : SynRow) : ℕ :=
  if riskScore r < 2 then 0 else if riskScore r < 4 then 1 else 2

/-- Zip the twelve generated feature columns into rows. -/
def zipRows : List ℚ → List ℚ → List ℚ → List ℚ → List ℚ → List ℚ →
    List String → List ℚ → List ℚ → List ℚ → List String → List String → List SynRow
  | a :: as, b :: bs, c :: cs, d :: ds, e :: es, f :: fs,
    g :: gs, h :: hs, i :: js, j :: ks, k :: ls, l :: ms =>
    ⟨a, b, c, d, e, f, g, h, i, j, k, l⟩ :: zipRows as bs cs ds es fs gs hs js ks ls ms
  | _, _, _, _, _, _, _, _, _, _, _, _ => []

/-- The feature rows of `OutbreakPredictor._generate_synthetic_data`: the
function first re-seeds the global generator with 42 and then draws each
feature column in source order.  It takes the incoming global generator
state as an argument to record that the re-seeding makes the result
independent of it. -/
def generateSyntheticRows (_gIn : RngState) : List SynRow :=
  let s := npSeed 42
  let (sd, s1) := drawCol (expoModel 2) s
  let (wq, s2) := drawCol (normalModel 7.5 1.5) s1
  let (ta, s3) := drawCol (normalModel 0 3) s2
  let (pd, s4) := drawCol (lognormalModel 8 1) s3
  let (ro, s5) := drawCol (poissonModel 0.5) s4
  let (sf, s6) := drawCol uniformModel s5
  let (wc, s7) := drawCat ["sunny", "rainy", "cloudy", "stormy"] s6
  let (ph, s8) := drawCol (normalModel 7 1) s7
  let (tb, s9) := drawCol (expoModel 10) s8
  let (td, s10) := drawCol (normalModel 200 100) s9
  let (lt, s11) := drawCat ["urban", "rural", "suburban"] s10
  let (ty, _) := drawCat ["spring", "summer", "fall", "winter"] s11
  zipRows sd wq ta pd ro sf wc ph tb td lt ty

/-- `OutbreakPredictor._generate_synthetic_data`: the generated feature rows
together with the labels derived row-wise from the weighted risk score (the
source computes the score on whole columns; per-row application is the same
elementwise computation). -/
def generateSyntheticData (gIn : RngState) : List SynRow × List ℕ :=
  (generateSyntheticRows gIn, (generateSyntheticRows gIn).map riskLabel)

/- ### Feature preparation for training (`_prepare_features`) -/

/-- A training row after `OutbreakPredictor._prepare_features`: the synthetic
row plus the three derived binary risk columns. -/
structure PreparedRow extends SynRow where
  water_quality_risk : ℚ
  temperature_risk : ℚ
  population_risk : ℚ
  deriving DecidableEq

/-- Column order of the synthetic frame (insertion order of the dict in
`_generate_synthetic_data`). -/
def synColumns : List String :=
  ["symptom_density", "water_quality_score", "temperature_anomaly",
   "population_density", "recent_outbreaks", "seasonal_factor",
   "weather_conditions", "ph_level", "turbidity", "tds_level",
   "location_type", "time_of_year"]

/-- `OutbreakPredictor._prepare_features` on the synthetic frame: the input
rows are complete so `fillna` is the identity; the three derived risk
columns are appended (pandas adds new columns at the end), and the returned
column list is the resulting frame's columns. -/
def prepareFeatures (rows : List SynRow) : List PreparedRow × List String :=
  (rows.map (fun r =>
    { toSynRow := r
      water_quality_risk := if r.water_quality_score < 6.5 then 1 else 0
      temperature_risk := if |r.temperature_anomaly| > 5 then 1 else 0
      population_risk := if r.population_density > 1000 then 1 else 0 }),
   synColumns ++ ["water_quality_risk", "temperature_risk", "population_risk"])

/-- The feature-column list recorded at fit time when training on the
synthetic corpus (`train` stores `_prepare_features`'s column list). -/
def trainColumns : List String := (prepareFeatures []).2

/- ### Specification-side restatements used for refinement claims -/

/-- The risk-score formula exactly as claim C2 words it. -/
def specRiskScore (r : SynRow) : ℚ :=
  0.3 * r.symptom_density + 0.2 * (8 - r.water_quality_score) +
  0.1 * |r.temperature_anomaly| + 0.2 * (r.population_density / 1000) +
  0.1 * r.recent_outbreaks + 0.1 * r.seasonal_factor

/-- The label thresholds exactly as claim C2 words them: label 0 when the
score is below 2, label 1 when it lies in [2, 4), label 2 otherwise. -/
def specLabel (r : SynRow) : ℕ :=
  if specRiskScore r < 2 then 0
  else if 2 ≤ specRiskScore r ∧ specRiskScore r < 4 then 1
  else 2

lemma riskScore_eq_spec (r : SynRow) : riskScore r = specRiskScore r := by
  unfold riskScore specRiskScore
  ring

lemma riskLabel_eq_spec (r : SynRow) : riskLabel r = specLabel r := by
  by_cases h1 : riskScore r < 2
  · simp [riskLabel, specLabel, ← riskScore_eq_spec, h1]
  · by_cases h2 : riskScore r < 4
    · simp [riskLabel, specLabel, ← riskScore_eq_spec, h1, h2, le_of_not_lt h1]
    · simp [riskLabel, specLabel, ← riskScore_eq_spec, h1, h2]

lemma riskLabel_mono {r r' : SynRow} (h : riskScore r ≤ riskScore r') :
    riskLabel r ≤ riskLabel r' := by
  unfold riskLabel
  split_ifs <;> first | omega | (exfalso; linarith)

/- ### Prediction-request inputs and feature extraction (`_extract_features`) -/

/-- One entry of the request's `sensor_data` list; every reading key is
optional (`'ph' in s` checks). -/
structure SensorReading where
  ph : Option ℚ
  turbidity : Option ℚ
  temperature : Option ℚ
  tds : Option ℚ
  deriving DecidableEq

/-- One entry of the request's `health_reports` list (`r.get('symptoms', [])`
and `r.get('severity', 1)` reads). -/
structure HealthReport where
  symptoms : Option (List String)
  severity : Option ℚ
  deriving DecidableEq

/-- The request's `location` dict (`.get('latitude', 0)` /
`.get('longitude', 0)` reads). -/
structure Location where
  latitude : Option ℚ
  longitude : Option ℚ
  deriving DecidableEq

/-- A prediction request as `_extract_features` reads it.  `none` for a list
field covers both an absent key and a Python-falsy (empty) value, matching
the `if 'sensor_data' in data and data['sensor_data']:` guards; a present
non-empty list is `some (x :: xs)`. -/
structure PredictInput where
  sensor_data : Option (List SensorReading)
  health_reports : Option (List HealthReport)
  location : Option Location
  deriving DecidableEq

/-- Arithmetic mean of a rational list (`np.mean`); 0 on the empty list,
which the source never hits because every use is guarded. -/
def qMean (xs : List ℚ) : ℚ :=
  if xs.length = 0 then 0 else xs.sum / xs.length

/-- The sensor-data feature block: water-quality composite, raw water
readings and the temperature anomaly, in dict-insertion order. -/
def sensorFeatures (sd : List SensorReading) : Frame :=
  let phs := sd.filterMap (fun s => s.ph)
  let tbs := sd.filterMap (fun s => s.turbidity)
  let tps := sd.filterMap (fun s => s.temperature)
  let tds := sd.filterMap (fun s => s.tds)
  [("water_quality_score", FVal.num (qMean
      [if phs.length = 0 then 7 else qMean phs,
       if tbs.length = 0 then 7 else (100 - qMean tbs) / 10,
       if tps.length = 0 then 7 else qMean tps / 10,
       if tds.length = 0 then 7 else (1000 - qMean tds) / 100])),
   ("ph_level", FVal.num (if phs.length = 0 then 7 else qMean phs)),
   ("turbidity", FVal.num (if tbs.length = 0 then 10 else qMean tbs)),
   ("tds_level", FVal.num (if tds.length = 0 then 200 else qMean tds)),
   ("temperature_anomaly", FVal.num (if tps.length = 0 then 0 else qMean tps - 25))]

/-- The health-report feature block: symptom density and severity score. -/
def healthFeatures (hr : List HealthReport) : Frame :=
  let totalSymptoms : ℚ := ((hr.map (fun r => (r.symptoms.getD []).length)).sum : ℕ)
  [("symptom_density", FVal.num (if hr.length = 0 then 0 else totalSymptoms / hr.length)),
   ("severity_score", FVal.num (qMean (hr.map (fun r => r.severity.getD 1)) / 10))]

/-- `OutbreakPredictor._estimate_population_density`: inside the valid
coordinate box the density is a lognormal draw whose log-mean is banded on
the latitude (8 below 30 degrees absolute, 7 otherwise); outside the box it
is the constant 500. -/
def estimatePopulationDensity (lat lon : ℚ) (g : RngState) : ℚ :=
  if -90 ≤ lat ∧ lat ≤ 90 ∧ -180 ≤ lon ∧ lon ≤ 180 then
    if |lat| < 30 then lognormalModel 8 1 (unitOf (lcgNext g))
    else lognormalModel 7 1 (unitOf (lcgNext g))
  else 500

/-- `OutbreakPredictor._classify_location_type`. -/
def classifyLocationType (lat : ℚ) (_lon : ℚ) : String :=
  if |lat| < 30 then "urban"
  else if |lat| < 60 then "suburban"
  else "rural"

/-- `OutbreakPredictor._calculate_seasonal_factor`: the fixed month-to-risk
table, 0.5 for an out-of-range month number. -/
def seasonalFactor (month : ℕ) : ℚ :=
  if month = 1 then 0.8 else if month = 2 then 0.9 else if month = 3 then 0.7
  else if month = 4 then 0.5 else if month = 5 then 0.4 else if month = 6 then 0.3
  else if month = 7 then 0.2 else if month = 8 then 0.3 else if month = 9 then 0.4
  else if month = 10 then 0.6 else if month = 11 then 0.7 else if month = 12 then 0.8
  else 0.5

/-- `OutbreakPredictor._get_season`. -/
def getSeason (month : ℕ) : String :=
  if month = 12 ∨ month = 1 ∨ month = 2 then "winter"
  else if month = 3 ∨ month = 4 ∨ month = 5 then "spring"
  else if month = 6 ∨ month = 7 ∨ month = 8 then "summer"
  else "fall"

/-- `OutbreakPredictor._extract_features`.  The wall clock enters only
through the current month (`month`), and the numpy global state through the
population-density draw (`g`).  The returned mapping lists the keys in the
dict's insertion order. -/
def extractFeatures (d : PredictInput) (month : ℕ) (g : RngState) : Frame :=
  (match d.sensor_data with
   | some (s :: ss) => sensorFeatures (s :: ss)
   | _ => []) ++
  (match d.health_reports with
   | some (r :: rs) => healthFeatures (r :: rs)
   | _ => [("symptom_density", FVal.num 0), ("severity_score", FVal.num 0)]) ++
  (match d.location with
   | some loc =>
     [("population_density",
       FVal.num (estimatePopulationDensity (loc.latitude.getD 0) (loc.longitude.getD 0) g)),
      ("location_type",
       FVal.str (classifyLocationType (loc.latitude.getD 0) (loc.longitude.getD 0)))]
   | none => [("population_density", FVal.num 500), ("location_type", FVal.str "urban")]) ++
  [("seasonal_factor", FVal.num (seasonalFactor month)),
   ("time_of_year", FVal.str (getSeason month)),
   ("recent_outbreaks", FVal.num 0),
   ("weather_conditions", FVal.str "sunny")]

/- ### Explanation generation -/

/-- `OutbreakPredictor._identify_contributing_factors`: sequential threshold
checks in source order, then `factors[:5]`. -/
def identifyContributingFactors (fm : Frame) : List String :=
  let factors : List String := []
  let factors := if getNumD fm "symptom_density" 0 > 3 then
    factors ++ ["High symptom density in the area"] else factors
  let factors := if getNumD fm "water_quality_score" 7 < 6.5 then
    factors ++ ["Poor water quality detected"] else factors
  let factors := if |getNumD fm "temperature_anomaly" 0| > 5 then
    factors ++ ["Unusual temperature patterns"] else factors
  let factors := if getNumD fm "population_density" 0 > 1000 then
    factors ++ ["High population density"] else factors
  let factors := if getNumD fm "recent_outbreaks" 0 > 0 then
    factors ++ ["Recent outbreak history in the area"] else factors
  let factors := if getNumD fm "seasonal_factor" 0.5 > 0.7 then
    factors ++ ["Seasonal risk factors present"] else factors
  factors.take 5

/-- The factor rules exactly as claim C4 words them: the six threshold
checks evaluated in a fixed priority order, collected in that order and
truncated to at most 5. -/
def specContributingFactors (fm : Frame) : List String :=
  (([(decide (getNumD fm "symptom_density" 0 > 3), "High symptom density in the area"),
     (decide (getNumD fm "water_quality_score" 7 < 6.5), "Poor water quality detected"),
     (decide (|getNumD fm "temperature_anomaly" 0| > 5), "Unusual temperature patterns"),
     (decide (getNumD fm "population_density" 0 > 1000), "High population density"),
     (decide (getNumD fm "recent_outbreaks" 0 > 0), "Recent outbreak history in the area"),
     (decide (getNumD fm "seasonal_factor" 0.5 > 0.7), "Seasonal risk factors present")]
    : List (Bool × String)).filterMap
      (fun p => if p.1 then some p.2 else none)).take 5

/-- A feature record in which every factor-relevant feature carries its
all-zero/neutral value (the defaults `_identify_contributing_factors` uses
for absent keys: 0 for the counts and anomalies, 7 for the water-quality
score, 0.5 for the seasonal factor). -/
def neutralFeatureRecord : Frame :=
  [("symptom_density", FVal.num 0),
   ("water_quality_score", FVal.num 7),
   ("temperature_anomaly", FVal.num 0),
   ("population_density", FVal.num 0),
   ("recent_outbreaks", FVal.num 0),
   ("seasonal_factor", FVal.num 0.5)]

/-- `OutbreakPredictor._generate_recommendations`: risk-level-keyed base
list, feature-triggered extras, truncated to 8. -/
def generateRecommendations (risk_level : String) (fm : Frame) : List String :=
  let recommendations : List String :=
    if risk_level = "high" then
      ["Issue immediate public health alert",
       "Increase monitoring frequency",
       "Implement containment measures",
       "Notify health authorities",
       "Consider temporary restrictions"]
    else if risk_level = "medium" then
      ["Increase surveillance in the area",
       "Monitor water quality closely",
       "Prepare response protocols",
       "Inform local health workers",
       "Track symptom patterns"]
    else
      ["Continue routine monitoring",
       "Maintain current surveillance levels",
       "Monitor for any changes",
       "Keep response teams on standby"]
  let recommendations := if getNumD fm "water_quality_score" 7 < 6.5 then
    recommendations ++ ["Investigate and improve water quality"] else recommendations
  let recommendations := if getNumD fm "symptom_density" 0 > 2 then
    recommendations ++ ["Investigate symptom clusters"] else recommendations
  recommendations.take 8

/- ### Predictor state, persistence and training
(`models/outbreak_predictor.py`) -/

/-- Fitted `StandardScaler` parameters.  `OutbreakPredictor.train` never
assigns `self.scaler`, so no value of this type is ever constructed by the
embedded code; the type only gives the state field its shape. -/
structure ScalerParams where
  tag : ℕ
  deriving DecidableEq

/-- Fitted `LabelEncoder` parameters; like the scaler, never assigned by
`train`. -/
structure EncoderParams where
  tag : ℕ
  deriving DecidableEq

/-- The fitted pipeline artifact.  The learned decision function of the
random-forest pipeline is kept abstract as two function fields; no claim
depends on the predicted values, only on when the pipeline is consulted and
on the frame handed to it. -/
structure FitArtifact where
  probaOf : Frame → ℚ × ℚ × ℚ
  classOf : Frame → Fin 3

/-- Fit of the model pipeline on the prepared training rows.  The learned
function itself is outside the embedding's scope (see `FitArtifact`); the
80/20 stratified split changes only which rows reach `fit`, not any state
component a claim mentions. -/
def fitModel (_x : List PreparedRow) (_y : List ℕ) : FitArtifact :=
  { probaOf := fun _ => (1, 0, 0), classOf := fun _ => (0 : Fin 3) }

/-- The mutable attributes of an `OutbreakPredictor` instance. -/
structure PredState where
  model : Option FitArtifact
  scaler : Option ScalerParams
  label_encoder : Option EncoderParams
  feature_columns : Option (List String)
  version : String
  last_trained : Option String

/-- The state `OutbreakPredictor.__init__` establishes. -/
def freshState : PredState :=
  { model := none, scaler := none, label_encoder := none,
    feature_columns := none, version := "1.0.0", last_trained := none }

/-- A persisted `model_data` payload.  The outer `Option` on each of the
first four fields is key presence in the dict (`model_data['model']` raises
`KeyError` when absent); the inner value is the stored attribute, which may
itself be Python `None`.  `version` and `last_trained` are read with
`.get`, so only key presence matters for them.  The two additional saved
keys `risk_thresholds` and `feature_weights` are constants that
`load_model` never reads back and are omitted. -/
structure ModelPayload where
  model : Option (Option FitArtifact)
  scaler : Option (Option ScalerParams)
  label_encoder : Option (Option EncoderParams)
  feature_columns : Option (Option (List String))
  version : Option String
  last_trained : Option String

/-- `OutbreakPredictor.load_model`.  The argument `blob` is the artifact
file's content: `none` means `joblib.load` itself raised (unreadable or
corrupt file).  A Python exception leaves the instance in whatever state
the statements before the raise produced, so the error branch carries the
(possibly part-updated) state. -/
def load_model (st : PredState) (blob : Option ModelPayload) :
    Except PredState PredState :=
  match blob with
  | none => Except.error st
  | some p =>
    match p.model with
    | none => Except.error st
    | some mv =>
      let st1 := { st with model := mv }
      match p.scaler with
      | none => Except.error st1
      | some sv =>
        let st2 := { st1 with scaler := sv }
        match p.label_encoder with
        | none => Except.error st2
        | some lv =>
          let st3 := { st2 with label_encoder := lv }
          match p.feature_columns with
          | none => Except.error st3
          | some fv =>
            Except.ok { st3 with
              feature_columns := fv
              version := p.version.getD "1.0.0"
              last_trained := p.last_trained }

/-- `OutbreakPredictor.save_model`: the payload written to disk, with every
key present. -/
def saveModelPayload (st : PredState) (now : String) : ModelPayload :=
  { model := some st.model
    scaler := some st.scaler
    label_encoder := some st.label_encoder
    feature_columns := some st.feature_columns
    version := some st.version
    last_trained := some now }

/-- `OutbreakPredictor.train` on the synthetic data source: generates the
corpus, records the prepared feature columns, fits the pipeline and stamps
the training time.  On this path the data generation, preparation and fit
are total, so the embedded `train` returns the new state directly; the
`save_model` disk write it also performs is modelled by
`saveModelPayload` where a claim needs it. -/
def train (st : PredState) (g : RngState) (now : String) : PredState :=
  let xy := generateSyntheticData g
  let prepped := prepareFeatures xy.1
  { st with
    feature_columns := some prepped.2
    model := some (fitModel prepped.1 xy.2)
    last_trained := some now }

/-- `OutbreakPredictor.load_or_train`.  `disk` is the artifact path's
state: `none` when `self.model_path.exists()` is false, `some blob`
otherwise with `blob` as in `load_model`.  The `except` clause logs and
re-raises, so a load failure propagates to the caller. -/
def load_or_train (st : PredState) (disk : Option (Option ModelPayload))
    (g : RngState) (now : String) : Except PredState PredState :=
  match disk with
  | none => Except.ok (train st g now)
  | some blob =>
    match load_model st blob with
    | Except.ok st' => Except.ok st'
    | Except.error st' => Except.error st'

/- ### Prediction (`OutbreakPredictor.predict`) -/

/-- Error outcomes of `predict`: the guard `ValueError("Model not loaded or
trained")`, and the `TypeError` from iterating `self.feature_columns` while
it is still `None` (both re-raised by the `except` clause). -/
inductive PredictErr where
  | modelNotLoaded
  | featureColumnsMissing
  deriving DecidableEq

/-- The response dict `predict` builds (the wall-clock `timestamp` entry is
omitted). -/
structure PredictionOut where
  risk_level : String
  confidence : ℚ
  prob_low : ℚ
  prob_medium : ℚ
  prob_high : ℚ
  contributing_factors : List String
  recommendations : List String
  model_version : String

/-- The `for col in self.feature_columns: if col not in features_df.columns:
features_df[col] = 0` loop: missing trained-on columns are appended with
value 0, in column-list order, against the growing frame. -/
def ensureCols (cols : List String) (fm : Frame) : Frame :=
  match cols with
  | [] => fm
  | c :: cs =>
    ensureCols cs (if flook fm c = none then fm ++ [(c, FVal.num 0)] else fm)

/-- The reindexing `features_df = features_df[self.feature_columns]`:
selects exactly the trained-on columns, in their fit-time order (after
`ensureCols` every selected key is present, so the default is never
produced). -/
def selectCols (cols : List String) (fm : Frame) : Frame :=
  cols.map (fun c => (c, (flook fm c).getD (FVal.num 0)))

/-- The full schema-alignment step of `predict`. -/
def alignFeatures (cols : List String) (fm : Frame) : Frame :=
  selectCols cols (ensureCols cols fm)

/-- The three risk-level names, in class-index order. -/
def riskLevels : List String := ["low", "medium", "high"]

/-- `OutbreakPredictor.predict`.  `month` and `g` thread the wall clock and
the numpy state into `_extract_features`. -/
def predict (st : PredState) (d : PredictInput) (month : ℕ) (g : RngState) :
    Except PredictErr PredictionOut :=
  match st.model with
  | none => Except.error PredictErr.modelNotLoaded
  | some m =>
    match st.feature_columns with
    | none => Except.error PredictErr.featureColumnsMissing
    | some cols =>
      let features := extractFeatures d month g
      let aligned := alignFeatures cols features
      let proba := m.probaOf aligned
      let cls := m.classOf aligned
      Except.ok
        { risk_level := riskLevels.getD cls.val ""
          confidence := max proba.1 (max proba.2.1 proba.2.2)
          prob_low := proba.1
          prob_medium := proba.2.1
          prob_high := proba.2.2
          contributing_factors := identifyContributingFactors features
          recommendations :=
            generateRecommendations (riskLevels.getD cls.val "") features
          model_version := st.version }

/- ### The simplified predictor defined in `main.py` -/

/-- The artifact `main.py` persists: the bare fitted classifier.  The
learned decision function is outside the claims' scope, so the artifact is
modelled by the training set it was fitted on. -/
structure MainModel where
  trainX : List (List ℚ)
  trainY : List ℕ
  deriving DecidableEq

/-- The mutable attributes of `main.py`'s `OutbreakPredictor`. -/
structure MainPredState where
  model : Option MainModel
  version : String
  last_trained : Option String
  is_trained : Bool
  deriving DecidableEq

/-- The state `main.py`'s `OutbreakPredictor.__init__` establishes. -/
def mainFresh : MainPredState :=
  { model := none, version := "1.0.0", last_trained := none, is_trained := false }

/-- Row count of `main.py`'s `_generate_sample_data`. -/
def mainSampleCount : ℕ := 1000

/-- Split a flat draw list into rows of eight features. -/
def chunk8 : List ℚ → List (List ℚ)
  | a :: b :: c :: d :: e :: f :: g :: h :: rest =>
    [a, b, c, d, e, f, g, h] :: chunk8 rest
  | _ => []

/-- One label drawn by `np.random.choice([0, 1, 2], p=[0.6, 0.3, 0.1])`. -/
def mainLabelOf (u : ℚ) : ℕ := if u < 0.6 then 0 else if u < 0.9 then 1 else 2

/-- `main.py`'s `_generate_sample_data`: re-seeds the global generator with
42, then draws a `mainSampleCount` by 8 feature matrix and the labels. -/
def mainGenerateSampleData (_gIn : RngState) : List (List ℚ) × List ℕ :=
  let s := npSeed 42
  let (us, s') := drawN s (mainSampleCount * 8)
  let (ls, _) := drawN s' mainSampleCount
  (chunk8 us, ls.map mainLabelOf)

/-- `main.py`'s `OutbreakPredictor.train`: fits a fresh classifier on the
sample data, persists it (disk write omitted) and marks the predictor
trained.  Every step on this path is total. -/
def mainTrain (st : MainPredState) (g : RngState) (now : String) : MainPredState :=
  let xy := mainGenerateSampleData g
  { st with
    model := some { trainX := xy.1, trainY := xy.2 }
    is_trained := true
    last_trained := some now }

/-- `main.py`'s `OutbreakPredictor.load_or_train`.  `disk` is the artifact
file's state: `none` = absent, `some none` = present but `joblib.load`
raises, `some (some m)` = loads to `m`.  Both the missing-file branch and
the `except` clause fall back to `train`, so the function always returns a
state (no exception escapes on this path, `train` being total here). -/
def mainLoadOrTrain (st : MainPredState) (disk : Option (Option MainModel))
    (g : RngState) (now : String) : MainPredState :=
  match disk with
  | some (some m) => { st with model := some m, is_trained := true }
  | some none => mainTrain st g now
  | none => mainTrain st g now

/-- Error outcome of `main.py`'s `predict` guard: `HTTPException(503,
"Model not trained")`. -/
inductive MainErr where
  | notTrained
  deriving DecidableEq

/-- `main.py`'s `OutbreakPredictor.predict`: the not-ready guard `if not
self.is_trained or self.model is None`.  The successful branch's response
construction from the fitted forest is outside the claims' scope and is
modelled by returning the model and the raw input row that reach it. -/
def mainPredict (st : MainPredState) (data : List ℚ) :
    Except MainErr (MainModel × List ℚ) :=
  match st.is_trained, st.model with
  | true, some m => Except.ok (m, data)
  | _, _ => Except.error MainErr.notTrained

/- ### Concrete rows used in counterexamples and witnesses -/

/-- A synthetic row whose only nonzero risk contribution is a negative
temperature anomaly: its risk score is `|-30| * 0.1 = 3`. -/
def ceRowNeg : SynRow :=
  { symptom_density := 0, water_quality_score := 8, temperature_anomaly := -30,
    population_density := 0, recent_outbreaks := 0, seasonal_factor := 0,
    weather_conditions := "sunny", ph_level := 7, turbidity := 10,
    tds_level := 200, location_type := "urban", time_of_year := "spring" }

/-- The same row with the temperature anomaly increased to 0: its risk
score drops to 0. -/
def ceRowZero : SynRow := { ceRowNeg with temperature_anomaly := 0 }

/- ### Claim theorems -/

/-- C2: every synthetic-data label equals the thresholding of the
deterministic weighted linear risk score, with the weights and the
thresholds exactly as the claim states them (`specRiskScore` /
`specLabel`); moreover the per-row label rule of the code agrees with the
claim's rule on every feature row. -/
theorem C2_synthetic_labels_follow_risk_score :
    (∀ g : RngState,
      (generateSyntheticData g).2 = (generateSyntheticData g).1.map specLabel) ∧
    ∀ r : SynRow, riskLabel r = specLabel r := by
  refine ⟨fun g => ?_, riskLabel_eq_spec⟩
  unfold generateSyntheticData
  rw [funext riskLabel_eq_spec]

/-- C3: on a freshly constructed, never-loaded predictor, `predict` fails
with the model-unavailable / not-ready error and never returns a
prediction result; this holds for `models/outbreak_predictor.py` (the
`ValueError` guard) and for the `main.py` predictor (the 503
`HTTPException` guard). -/
theorem C3_predict_before_training_is_reported_error :
    (∀ (d : PredictInput) (month : ℕ) (g : RngState),
      predict freshState d month g = Except.error PredictErr.modelNotLoaded) ∧
    ∀ data : List ℚ, mainPredict mainFresh data = Except.error MainErr.notTrained :=
  ⟨fun _ _ _ => rfl, fun _ => rfl⟩

/-- C4: on the all-zero/neutral feature record no threshold fires and the
contributing-factor list is empty; in general the factors are exactly the
claim's six threshold checks evaluated in the claim's fixed priority
order, truncated to at most 5. -/
theorem C4_contributing_factors_neutral_and_order :
    identifyContributingFactors neutralFeatureRecord = [] ∧
    (∀ fm : Frame, identifyContributingFactors fm = specContributingFactors fm) ∧
    ∀ fm : Frame, (identifyContributingFactors fm).length ≤ 5 := by
  refine ⟨by
      simp [identifyContributingFactors, neutralFeatureRecord, getNumD, flook, fvalNum]
      norm_num,
    fun fm => ?_, fun fm => ?_⟩
  · by_cases h1 : getNumD fm "symptom_density" 0 > 3 <;>
    by_cases h2 : getNumD fm "water_quality_score" 7 < 6.5 <;>
    by_cases h3 : |getNumD fm "temperature_anomaly" 0| > 5 <;>
    by_cases h4 : getNumD fm "population_density" 0 > 1000 <;>
    by_cases h5 : getNumD fm "recent_outbreaks" 0 > 0 <;>
    by_cases h6 : getNumD fm "seasonal_factor" 0.5 > 0.7 <;>
    simp [identifyContributingFactors, specContributingFactors,
      h1, h2, h3, h4, h5, h6]
  · unfold identifyContributingFactors
    simp only [List.length_take]
    omega

/-- C5 counterexample: temperature anomaly is listed by the claim as a
positively-weighted feature, but it enters the risk score through its
absolute value, so increasing it (here from -30 to 0, all other features
held fixed) strictly decreases the assigned label. -/
theorem C5_counterexample_temperature_anomaly :
    ceRowNeg.temperature_anomaly < ceRowZero.temperature_anomaly ∧
    riskLabel ceRowZero < riskLabel ceRowNeg := by
  constructor
  · norm_num [ceRowNeg, ceRowZero]
  · norm_num [riskLabel, riskScore, ceRowNeg, ceRowZero]

/-- C5 amended: the label is monotone when any of symptom density,
population density, recent outbreaks or seasonal factor is increased with
the other features held fixed, and monotone in the *absolute value* of the
temperature anomaly (its claimed monotonicity in the signed anomaly is
what the counterexample refutes). -/
theorem C5_label_monotone_amended (r : SynRow) (d : ℚ) (hd : 0 ≤ d) :
    (riskLabel r ≤ riskLabel { r with symptom_density := r.symptom_density + d } ∧
     riskLabel r ≤ riskLabel { r with population_density := r.population_density + d } ∧
     riskLabel r ≤ riskLabel { r with recent_outbreaks := r.recent_outbreaks + d } ∧
     riskLabel r ≤ riskLabel { r with seasonal_factor := r.seasonal_factor + d }) ∧
    ∀ t : ℚ, |r.temperature_anomaly| ≤ |t| →
      riskLabel r ≤ riskLabel { r with temperature_anomaly := t } := by
  constructor
  · refine ⟨riskLabel_mono ?_, riskLabel_mono ?_, riskLabel_mono ?_, riskLabel_mono ?_⟩ <;>
      (simp only [riskScore]; linarith)
  · intro t ht
    apply riskLabel_mono
    simp only [riskScore]
    linarith

/-- C5 amended, witnessed at a concrete row: increasing the symptom density
by 1 and replacing a zero temperature anomaly by one of larger absolute
value both keep the label from decreasing. -/
theorem C5_label_monotone_amended_witness :
    riskLabel ceRowZero ≤
      riskLabel { ceRowZero with symptom_density := ceRowZero.symptom_density + 1 } ∧
    riskLabel ceRowZero ≤ riskLabel { ceRowZero with temperature_anomaly := 5 } :=
  ⟨(C5_label_monotone_amended ceRowZero 1 (by norm_num)).1.1,
   (C5_label_monotone_amended ceRowZero 1 (by norm_num)).2 5
     (by norm_num [ceRowZero, ceRowNeg])⟩

/-- C6: the synthetic generator re-seeds the global generator with the
fixed seed 42 before drawing, so two calls — whatever the ambient generator
states — produce identical feature rows and identical labels. -/
theorem C6_generator_deterministic (g1 g2 : RngState) :
    generateSyntheticData g1 = generateSyntheticData g2 := rfl

/- ### Helper lemmas for the alignment and extraction claims -/

lemma flook_append (xs ys : Frame) (k : String) :
    flook (xs ++ ys) k = (flook xs k).or (flook ys k) := by
  induction xs with
  | nil => simp [flook]
  | cons p rest ih =>
    obtain ⟨k', v⟩ := p
    by_cases h : k' = k <;> simp [flook, h, ih]

lemma flook_ensureCols (cols : List String) (fm : Frame) (c : String) :
    flook (ensureCols cols fm) c =
      (flook fm c).or (if c ∈ cols then some (FVal.num 0) else none) := by
  induction cols generalizing fm with
  | nil => simp [ensureCols]
  | cons c0 cs ih =>
    simp only [ensureCols]
    by_cases h0 : flook fm c0 = none
    · rw [if_pos h0, ih, flook_append]
      by_cases hc : c0 = c
      · subst hc
        simp [flook, h0]
      · by_cases hmem : c ∈ cs <;>
          cases hfc : flook fm c <;>
            simp [flook, hc, hmem, hfc, List.mem_cons, Ne.symm hc]
    · rw [if_neg h0, ih]
      by_cases hc : c0 = c
      · subst hc
        cases hfc : flook fm c0
        · exact absurd hfc h0
        · simp [hfc]
      · simp [List.mem_cons, Ne.symm hc]

lemma alignFeatures_eq (cols : List String) (fm : Frame) :
    alignFeatures cols fm =
      cols.map (fun c => (c, (flook fm c).getD (FVal.num 0))) := by
  unfold alignFeatures selectCols
  refine List.map_congr_left (fun c hc => ?_)
  rw [flook_ensureCols, if_pos hc]
  cases hfc : flook fm c <;> simp [hfc]

lemma flook_map_of_mem (cols : List String) (f : String → FVal) (k : String)
    (hk : k ∈ cols) :
    flook (cols.map (fun c => (c, f c))) k = some (f k) := by
  induction cols with
  | nil => cases hk
  | cons c0 cs ih =>
    simp only [List.map_cons, flook]
    by_cases h : c0 = k
    · subst h
      simp
    · rcases List.mem_cons.mp hk with h' | h'
      · exact absurd h'.symm h
      · simp [h, ih h']

lemma flook_extract_risk_cols (d : PredictInput) (month : ℕ) (g : RngState) :
    flook (extractFeatures d month g) "water_quality_risk" = none ∧
    flook (extractFeatures d month g) "temperature_risk" = none ∧
    flook (extractFeatures d month g) "population_risk" = none := by
  obtain ⟨sd, hr, loc⟩ := d
  refine ⟨?_, ?_, ?_⟩ <;>
  · rcases sd with _ | ⟨_ | ⟨s, ss⟩⟩ <;> rcases hr with _ | ⟨_ | ⟨r, rs⟩⟩ <;>
      rcases loc with _ | loc <;>
      simp [extractFeatures, sensorFeatures, healthFeatures, flook_append, flook]

lemma expQ_lt_expQ {x y : ℚ} (h : x < y) : expQ x < expQ y := by
  unfold expQ
  split_ifs with hx hy hy
  · linarith
  · linarith
  · have h2 : 1 / (1 - x) < 1 := by
      rw [div_lt_one (by linarith)]
      linarith
    linarith
  · have hy' : (0:ℚ) < 1 - y := by linarith
    exact one_div_lt_one_div_of_lt hy' (by linarith)

/- ### Remaining claim theorems -/

/-- C1 counterexample: with the artifact file present but unreadable (or
corrupt), `models/outbreak_predictor.py`'s `load_or_train` re-raises the
load failure to its caller instead of falling back to `train`, so the
predictor is left untrained and the call is not exception-free. -/
theorem C1_load_or_train_counterexample :
    load_or_train freshState (some none) 0 "now" = Except.error freshState ∧
    freshState.model = none := ⟨rfl, rfl⟩

/-- C1 amended: `main.py`'s `load_or_train` is total — for every starting
state and every disk state (absent, unreadable, or readable artifact) it
returns with the predictor trained and a model present, absorbing load
failures by falling back to `train`; the `models/outbreak_predictor.py`
version falls back to `train` only when the artifact file is absent (and
that path is exception-free), re-raising actual load failures. -/
theorem C1_load_or_train_amended :
    (∀ (st : MainPredState) (disk : Option (Option MainModel))
        (g : RngState) (now : String),
      (mainLoadOrTrain st disk g now).is_trained = true ∧
      (mainLoadOrTrain st disk g now).model.isSome = true) ∧
    ∀ (st : PredState) (g : RngState) (now : String),
      load_or_train st none g now = Except.ok (train st g now) ∧
      (train st g now).model.isSome = true := by
  constructor
  · intro st disk g now
    rcases disk with _ | ⟨_ | m⟩ <;> exact ⟨rfl, rfl⟩
  · intro st g now
    exact ⟨rfl, rfl⟩

/-- C7: location-derived features are banded on the latitude —
`classifyLocationType` returns "urban" below 30 degrees absolute latitude,
"suburban" below 60, "rural" otherwise; inside the valid coordinate box the
population density drawn for a sub-30-degree latitude is strictly higher
than the one drawn for any other latitude at the same generator state (the
lognormal log-mean is 8 rather than 7); and a request without a location
gets population density 500 and location type "urban". -/
theorem C7_location_banding :
    (∀ lat lon : ℚ, |lat| < 30 → classifyLocationType lat lon = "urban") ∧
    (∀ lat lon : ℚ, 30 ≤ |lat| → |lat| < 60 → classifyLocationType lat lon = "suburban") ∧
    (∀ lat lon : ℚ, 60 ≤ |lat| → classifyLocationType lat lon = "rural") ∧
    (∀ lat1 lon1 lat2 lon2 : ℚ, ∀ g : RngState,
      |lat1| < 30 → 30 ≤ |lat2| →
      -90 ≤ lat1 → lat1 ≤ 90 → -180 ≤ lon1 → lon1 ≤ 180 →
      -90 ≤ lat2 → lat2 ≤ 90 → -180 ≤ lon2 → lon2 ≤ 180 →
      estimatePopulationDensity lat2 lon2 g < estimatePopulationDensity lat1 lon1 g) ∧
    ∀ (d : PredictInput) (month : ℕ) (g : RngState), d.location = none →
      flook (extractFeatures d month g) "population_density" = some (FVal.num 500) ∧
      flook (extractFeatures d month g) "location_type" = some (FVal.str "urban") := by
  refine ⟨fun lat lon h => ?_, fun lat lon h1 h2 => ?_, fun lat lon h => ?_,
    fun lat1 lon1 lat2 lon2 g h1 h2 a1 a2 a3 a4 b1 b2 b3 b4 => ?_,
    fun d month g hloc => ?_⟩
  · simp [classifyLocationType, h]
  · simp [classifyLocationType, not_lt.mpr h1, h2]
  · simp [classifyLocationType, not_lt.mpr (by linarith : (30:ℚ) ≤ |lat|),
      not_lt.mpr h]
  · rw [estimatePopulationDensity, estimatePopulationDensity,
      if_pos ⟨b1, b2, b3, b4⟩, if_neg (not_lt.mpr h2),
      if_pos ⟨a1, a2, a3, a4⟩, if_pos h1]
    unfold lognormalModel
    exact expQ_lt_expQ (by linarith)
  · obtain ⟨sd, hr, loc⟩ := d
    cases loc with
    | some l => simp at hloc
    | none =>
      constructor <;>
      · rcases sd with _ | ⟨_ | ⟨s, ss⟩⟩ <;> rcases hr with _ | ⟨_ | ⟨r, rs⟩⟩ <;>
          simp [extractFeatures, sensorFeatures, healthFeatures, flook_append, flook]

/-- C7 witnessed at concrete inputs: latitudes 10 / 45 / 80 hit the three
bands, density at latitude 10 strictly exceeds density at latitude 45 at
the same generator state, and a location-free request gets the defaults. -/
theorem C7_location_banding_witness :
    classifyLocationType 10 20 = "urban" ∧
    classifyLocationType 45 20 = "suburban" ∧
    classifyLocationType 80 20 = "rural" ∧
    estimatePopulationDensity 45 20 7 < estimatePopulationDensity 10 20 7 ∧
    flook (extractFeatures ⟨none, none, none⟩ 6 7) "population_density" =
      some (FVal.num 500) ∧
    flook (extractFeatures ⟨none, none, none⟩ 6 7) "location_type" =
      some (FVal.str "urban") := by
  have h := C7_location_banding
  have hdef := h.2.2.2.2 ⟨none, none, none⟩ 6 7 rfl
  exact ⟨h.1 10 20 (by norm_num), h.2.1 45 20 (by norm_num) (by norm_num),
    h.2.2.1 80 20 (by norm_num),
    h.2.2.2.1 10 20 45 20 7 (by norm_num) (by norm_num) (by norm_num)
      (by norm_num) (by norm_num) (by norm_num) (by norm_num) (by norm_num)
      (by norm_num) (by norm_num),
    hdef.1, hdef.2⟩

/-- C8: the schema-alignment step of `predict` yields exactly the trained-on
columns, in fit-time order, each bound to the extracted value when the key
is present and to the default 0 otherwise; keys outside `feature_columns`
are dropped (the result's key list is exactly the column list). -/
theorem C8_predict_schema_alignment (cols : List String) (fm : Frame) :
    alignFeatures cols fm =
      cols.map (fun c => (c, (flook fm c).getD (FVal.num 0))) ∧
    (alignFeatures cols fm).map Prod.fst = cols := by
  refine ⟨alignFeatures_eq cols fm, ?_⟩
  rw [alignFeatures_eq, List.map_map]
  show List.map id cols = cols
  exact List.map_id cols

/-- A concrete fitted-pipeline artifact used in the persistence
counterexample and witnesses. -/
def ceArtifact : FitArtifact :=
  { probaOf := fun _ => (1, 0, 0), classOf := fun _ => 0 }

/-- A persisted payload holding the `model` key but missing the `scaler`
key (a partial artifact). -/
def ceHalfPayload : ModelPayload :=
  { model := some (some ceArtifact), scaler := none, label_encoder := none,
    feature_columns := none, version := none, last_trained := none }

/-- C9 counterexample: a persisted payload that contains the `model` key but
lacks the `scaler` key makes `load_model` raise (a load failure), yet the
predictor's `model` attribute has already been overwritten — the prior state
is not left unchanged by the failed partial load. -/
theorem C9_partial_load_counterexample :
    load_model freshState (some ceHalfPayload) =
      Except.error { freshState with model := some ceArtifact } ∧
    freshState.model = none ∧
    ({ freshState with model := some ceArtifact } : PredState).model ≠ none := by
  refine ⟨rfl, rfl, ?_⟩
  simp

/-- A persisted payload with every component key present. -/
def fullPayload (mv : Option FitArtifact) (sv : Option ScalerParams)
    (lv : Option EncoderParams) (fv : Option (List String))
    (v lt : Option String) : ModelPayload :=
  { model := some mv, scaler := some sv, label_encoder := some lv,
    feature_columns := some fv, version := v, last_trained := lt }

/-- A persisted payload holding only the `model` key among the four
component keys. -/
def modelOnlyPayload (mv : Option FitArtifact) (v lt : Option String) :
    ModelPayload :=
  { model := some mv, scaler := none, label_encoder := none,
    feature_columns := none, version := v, last_trained := lt }

/-- C9 amended: a payload containing all four component keys is restored
atomically (all components together, plus version and timestamp), and a
payload saved by `save_model` round-trips; but a partial payload raises a
load failure *after* the components read before the missing key were
already assigned, and `load_or_train` propagates that failure instead of
retraining. -/
theorem C9_load_restores_components_amended (st : PredState)
    (mv : Option FitArtifact) (sv : Option ScalerParams)
    (lv : Option EncoderParams) (fv : Option (List String))
    (v lt : Option String) :
    (load_model st (some (fullPayload mv sv lv fv v lt)) =
      Except.ok { st with
        model := mv
        scaler := sv
        label_encoder := lv
        feature_columns := fv
        version := v.getD "1.0.0"
        last_trained := lt }) ∧
    (∀ (st' : PredState) (now : String),
      load_model st' (some (saveModelPayload st now)) =
        Except.ok { st' with
          model := st.model
          scaler := st.scaler
          label_encoder := st.label_encoder
          feature_columns := st.feature_columns
          version := st.version
          last_trained := some now }) ∧
    (load_model st (some (modelOnlyPayload mv v lt)) =
      Except.error { st with model := mv }) ∧
    ∀ (g : RngState) (now : String),
      load_or_train st (some (some (modelOnlyPayload mv v lt))) g now =
        Except.error { st with model := mv } :=
  ⟨rfl, fun _ _ => rfl, rfl, fun _ _ => rfl⟩

/-- C10: the training schema (`trainColumns`, recorded by `train` from
`_prepare_features`) contains the three derived risk columns, which
`_extract_features` never emits for a prediction request; consequently the
aligned frame handed to the classifier in every `predict` call binds all
three to the default 0, whatever the request contained. -/
theorem C10_derived_risk_columns_always_zero (d : PredictInput) (month : ℕ)
    (g : RngState) :
    ("water_quality_risk" ∈ trainColumns ∧ "temperature_risk" ∈ trainColumns ∧
      "population_risk" ∈ trainColumns) ∧
    (flook (extractFeatures d month g) "water_quality_risk" = none ∧
     flook (extractFeatures d month g) "temperature_risk" = none ∧
     flook (extractFeatures d month g) "population_risk" = none) ∧
    (flook (alignFeatures trainColumns (extractFeatures d month g))
        "water_quality_risk" = some (FVal.num 0) ∧
     flook (alignFeatures trainColumns (extractFeatures d month g))
        "temperature_risk" = some (FVal.num 0) ∧
     flook (alignFeatures trainColumns (extractFeatures d month g))
        "population_risk" = some (FVal.num 0)) := by
  have hnone := flook_extract_risk_cols d month g
  have hmem : "water_quality_risk" ∈ trainColumns ∧
      "temperature_risk" ∈ trainColumns ∧ "population_risk" ∈ trainColumns := by
    refine ⟨?_, ?_, ?_⟩ <;> simp [trainColumns, prepareFeatures, synColumns]
  refine ⟨hmem, hnone, ?_, ?_, ?_⟩
  · rw [alignFeatures_eq, flook_map_of_mem _ _ _ hmem.1]
    simp [hnone.1]
  · rw [alignFeatures_eq, flook_map_of_mem _ _ _ hmem.2.1]
    simp [hnone.2.1]
  · rw [alignFeatures_eq, flook_map_of_mem _ _ _ hmem.2.2]
    simp [hnone.2.2]

end SIH
